import Mathlib

/-!
Verification of the ESO Paranal SQLite pipeline (`pipeline/database.py`,
`pipeline/reducer.py`) against its design specification.

Modelling conventions:
* numpy floating-point arrays become `List RVal` with `RVal := Option ℚ`;
  `none` models IEEE NaN and `some q` a finite value.  Real arithmetic is
  modelled exactly over `ℚ`.  Division by zero (which IEEE maps to ±inf)
  is modelled as NaN; no verified scenario divides by zero, the guard in
  the reducer clamps every near-zero divisor first.
* SQLite TEXT columns become `Option String` (`none` = SQL NULL) and SQL
  `=` becomes `sqlEqS`, which is never true on NULL, as in SQLite.
* The sqlite3 connection becomes an explicit `Store` value threaded
  through every operation; `INTEGER PRIMARY KEY` rowids become per-table
  counters (the tables are insert-only, so this coincides with sqlite's
  max-rowid+1 assignment).
* `print` diagnostics become `List String` results; an uncaught Python
  exception becomes an explicit `exn`/`aborted` constructor carrying the
  store as committed so far (every mutating call commits immediately).
-/

/-- A numpy floating-point scalar: `none` is NaN, `some q` a finite value. -/
abbrev RVal := Option ℚ

/-- numpy elementwise subtraction: NaN propagates through `-`. -/
def rsub (a b : RVal) : RVal :=
  match a, b with
  | some x, some y => some (x - y)
  | _, _ => none

/-- numpy elementwise division: NaN propagates through `/`.  A zero divisor
(IEEE ±inf) is modelled as NaN; it is unreachable in the verified scenarios
because the reducer clamps near-zero divisors to 1 beforehand. -/
def rdiv (a b : RVal) : RVal :=
  match a, b with
  | some x, some y => if y = 0 then none else some (x / y)
  | _, _ => none

/-- IEEE comparison `a < c` for a possibly-NaN left operand: false on NaN. -/
def rltc (a : RVal) (c : ℚ) : Bool :=
  match a with
  | some x => decide (x < c)
  | none => false

/-- Insert a rational into an already sorted list (ascending). -/
def insertSorted (x : ℚ) : List ℚ → List ℚ
  | [] => [x]
  | y :: ys => if x ≤ y then x :: y :: ys else y :: insertSorted x ys

/-- Insertion sort, ascending. -/
def sortQ : List ℚ → List ℚ
  | [] => []
  | x :: xs => insertSorted x (sortQ xs)

/-- Middle element of a non-empty sorted list, or the mean of the two
middle elements for an even length — numpy's median rule. -/
def midOfSorted (s : List ℚ) : ℚ :=
  let n := s.length
  if n % 2 = 1 then s.getD (n / 2) 0
  else (s.getD (n / 2 - 1) 0 + s.getD (n / 2) 0) / 2

/-- numpy median of a list of finite values: sort and take the middle.
`none` for an empty list (numpy returns NaN with a RuntimeWarning there). -/
def medianQ (xs : List ℚ) : Option ℚ :=
  match sortQ xs with
  | [] => none
  | y :: ys => some (midOfSorted (y :: ys))

/-- `np.nanmedian` over one slice: NaN entries are ignored; an empty or
all-NaN slice yields NaN. -/
def nanmedian (xs : List RVal) : RVal :=
  medianQ (xs.filterMap id)

/-- The slice of a stack of equal-length arrays at pixel `i`
(`stack[:, i]`).  Out-of-range rows contribute NaN; numpy would instead
reject ragged stacks, which never arise in the verified scenarios. -/
def pixelSlice (stack : List (List RVal)) (i : Nat) : List RVal :=
  stack.map (fun row => row.getD i none)

/-- `np.nanmedian(stack, axis=0)` for a stack of arrays of length `n`.
For an empty stack every slice is empty, giving an all-NaN result — exactly
the broadcast of the scalar NaN numpy produces for an empty stack. -/
def elemNanMedian (stack : List (List RVal)) (n : Nat) : List RVal :=
  (List.range n).map (fun i => nanmedian (pixelSlice stack i))

/-- `reducer.py` line 8: `combined_dark = np.nanmedian(darks, axis=0)`. -/
def combinedDark (darks : List (List RVal)) (n : Nat) : List RVal :=
  elemNanMedian darks n

/-- Elementwise array subtraction. -/
def subArr (a b : List RVal) : List RVal :=
  List.zipWith rsub a b

/-- `reducer.py` line 10: dark-subtracted flats. -/
def darkSubtractedFlats (flats darks : List (List RVal)) (n : Nat) : List (List RVal) :=
  flats.map (fun f => subArr f (combinedDark darks n))

/-- `reducer.py` line 12: `combined_flat = np.nanmedian(flats, axis=0)`. -/
def combinedFlatRaw (flats darks : List (List RVal)) (n : Nat) : List RVal :=
  elemNanMedian (darkSubtractedFlats flats darks n) n

/-- `reducer.py` line 14, the normalization constant
`np.nanmedian(combined_flat)`. -/
def flatNorm (flats darks : List (List RVal)) (n : Nat) : RVal :=
  nanmedian (combinedFlatRaw flats darks n)

/-- `reducer.py` line 14: `combined_flat /= np.nanmedian(combined_flat)`. -/
def normalizedFlat (flats darks : List (List RVal)) (n : Nat) : List RVal :=
  (combinedFlatRaw flats darks n).map (fun x => rdiv x (flatNorm flats darks n))

/-- The clamp threshold `1e-8` of `reducer.py` line 15. -/
def clampThreshold : ℚ := 1 / 100000000

/-- `reducer.py` line 15: `combined_flat[combined_flat < 1e-8] = 1.0`.
The comparison is IEEE `<`, false on NaN, so NaN pixels are kept. -/
def clampFlat (a : List RVal) : List RVal :=
  a.map (fun x => if rltc x clampThreshold then some 1 else x)

/-- `reduce_science_file` of `reducer.py`: the pixel data written to the
output file (the function writes its result unconditionally). -/
def reduce_science_file (science : List RVal) (flats darks : List (List RVal)) : List RVal :=
  let n := science.length
  List.zipWith rdiv (subArr science (combinedDark darks n))
    (clampFlat (normalizedFlat flats darks n))

/-- Python `needle in hay` on strings: contiguous substring test. -/
def strContains (hay needle : String) : Bool :=
  go needle.toList hay.toList
where
  go (needle : List Char) : List Char → Bool
    | [] => needle.isEmpty
    | c :: rest => List.isPrefixOf needle (c :: rest) || go needle rest

/-- Python truthiness of an optional string (`None` and `""` are falsy). -/
def isTruthy (o : Option String) : Bool :=
  match o with
  | some s => !(s == "")
  | none => false

/-- Python `f"{value}"` on a possibly-`None` value. -/
def showOpt (o : Option String) : String :=
  o.getD "None"

/-- A row of the `raw_files` table. -/
structure RawRow where
  id : Nat
  path : String
  binning : Option String
  filter : Option String
  category : Option String
  type : Option String
  mjd : Option ℚ
  exposure_time : Option ℚ
  read_speed : Option String
  object_name : Option String
  date : Option String
  deriving Repr, DecidableEq

/-- A row of the `flats` table. -/
structure FlatRow where
  id : Nat
  raw_file_id : Nat
  binning : Option String
  filter : Option String
  read_speed : Option String
  deriving Repr, DecidableEq

/-- A row of the `darks` table. -/
structure DarkRow where
  id : Nat
  raw_file_id : Nat
  binning : Option String
  read_speed : Option String
  deriving Repr, DecidableEq

/-- A row of the `science` table.  `unique_key`, `object_name` and `date`
are always real strings: every insertion goes through `add_science`. -/
structure SciRow where
  id : Nat
  raw_file_id : Nat
  unique_key : String
  object_name : String
  date : String
  deriving Repr, DecidableEq

/-- A row of the `reduced_data` table. -/
structure RedRow where
  id : Nat
  science_unique_key : String
  reduced_path : String
  deriving Repr, DecidableEq

/-- The whole SQLite database.  The `next*Id` counters model sqlite rowid
assignment for the insert-only tables. -/
structure Store where
  raws : List RawRow
  flats : List FlatRow
  darks : List DarkRow
  science : List SciRow
  reduced : List RedRow
  nextRawId : Nat
  nextFlatId : Nat
  nextDarkId : Nat
  nextSciId : Nat
  nextRedId : Nat
  deriving Repr, DecidableEq

/-- The store created by `create_tables` on a fresh database file. -/
def emptyStore : Store :=
  ⟨[], [], [], [], [], 1, 1, 1, 1, 1⟩

/-- The `file_info` dictionary as built in `register_fits_files`
(`binning` is always a constructed string there). -/
structure FileInfo where
  path : String
  binning : String
  filter : Option String
  category : Option String
  type : Option String
  mjd : Option ℚ
  exposure_time : Option ℚ
  read_speed : Option String
  object_name : Option String
  date : Option String
  deriving Repr, DecidableEq

/-- SQL `=` on nullable TEXT values: never true when either side is NULL. -/
def sqlEqS (a b : Option String) : Bool :=
  match a, b with
  | some x, some y => x == y
  | _, _ => false

/-- `DatabaseInterface.raw_file_exists`. -/
def raw_file_exists (st : Store) (path : String) : Bool :=
  st.raws.any (fun r => r.path == path)

/-- The `raw_files` row inserted for a `file_info` dictionary. -/
def rawRowOf (st : Store) (fi : FileInfo) : RawRow :=
  { id := st.nextRawId, path := fi.path, binning := some fi.binning,
    filter := fi.filter, category := fi.category, type := fi.type,
    mjd := fi.mjd, exposure_time := fi.exposure_time,
    read_speed := fi.read_speed, object_name := fi.object_name,
    date := fi.date }

/-- `DatabaseInterface.add_raw_file`: no-op returning `None` when the path
is already present, otherwise insert and return the new rowid. -/
def add_raw_file (st : Store) (fi : FileInfo) : Option Nat × Store :=
  if raw_file_exists st fi.path then (none, st)
  else
    (some st.nextRawId,
      { st with
        raws := st.raws ++ [rawRowOf st fi],
        nextRawId := st.nextRawId + 1 })

/-- `DatabaseInterface.add_flat`: `INSERT OR IGNORE` keyed on the unique
`raw_file_id`.  The source also returns `cursor.lastrowid`, unused by every
caller, so the model returns only the store. -/
def add_flat (st : Store) (raw_file_id : Nat) (binning filter read_speed : Option String) : Store :=
  if st.flats.any (fun f => f.raw_file_id == raw_file_id) then st
  else
    { st with
      flats := st.flats ++ [⟨st.nextFlatId, raw_file_id, binning, filter, read_speed⟩],
      nextFlatId := st.nextFlatId + 1 }

/-- `DatabaseInterface.add_dark`: `INSERT OR IGNORE` keyed on the unique
`raw_file_id`. -/
def add_dark (st : Store) (raw_file_id : Nat) (binning read_speed : Option String) : Store :=
  if st.darks.any (fun d => d.raw_file_id == raw_file_id) then st
  else
    { st with
      darks := st.darks ++ [⟨st.nextDarkId, raw_file_id, binning, read_speed⟩],
      nextDarkId := st.nextDarkId + 1 }

/-- `DatabaseInterface.add_science`: build `unique_key = f"{object_name}__{date}"`;
on an existing key print a diagnostic and return `None` without inserting,
otherwise insert.  The third component collects the printed diagnostics. -/
def add_science (st : Store) (raw_file_id : Nat) (object_name date : String) :
    Option Nat × Store × List String :=
  let unique_key := object_name ++ "__" ++ date
  if st.science.any (fun s => s.unique_key == unique_key) then
    (none, st, ["Science entry with unique_key " ++ unique_key ++ " already exists."])
  else
    (some st.nextSciId,
      { st with
        science := st.science ++ [⟨st.nextSciId, raw_file_id, unique_key, object_name, date⟩],
        nextSciId := st.nextSciId + 1 },
      [])

/-- `DatabaseInterface.add_reduced_data`: `INSERT OR IGNORE` under the two
uniqueness constraints of `reduced_data`. -/
def add_reduced_data (st : Store) (science_unique_key reduced_path : String) : Store :=
  if st.reduced.any (fun r => r.science_unique_key == science_unique_key
      || r.reduced_path == reduced_path) then st
  else
    { st with
      reduced := st.reduced ++ [⟨st.nextRedId, science_unique_key, reduced_path⟩],
      nextRedId := st.nextRedId + 1 }

/-- `DatabaseInterface.get_unreduced_science_files`: the `LEFT JOIN …
WHERE reduced_data.id IS NULL` anti-join.  A science row joins a reduced
row exactly when the keys are equal (both sides are real strings here),
and joined rows always carry a non-NULL `id`, so a science key survives
exactly when no reduced row matches it. -/
def get_unreduced_science_files (st : Store) : List String :=
  (st.science.filter
      (fun s => !(st.reduced.any (fun r => r.science_unique_key == s.unique_key)))).map
    (fun s => s.unique_key)

/-- First row of `SELECT … FROM science s JOIN raw_files rf ON
s.raw_file_id = rf.id WHERE s.unique_key = ?` — the join product in table
order, filtered, first result (`fetchone`). -/
def sciJoinRaw (st : Store) (key : String) : Option (SciRow × RawRow) :=
  (st.science.flatMap
      (fun s => (st.raws.filter (fun r => r.id == s.raw_file_id)).map (fun r => (s, r)))).find?
    (fun p => p.1.unique_key == key)

/-- Outcome of `DatabaseInterface.get_files_for_science`. -/
inductive MatchResult where
  /-- The first `fetchone()` returned `None` and the tuple-unpacking
  `science_raw_path, = cursor.fetchone()` raised an uncaught `TypeError`. -/
  | crash
  /-- The `if not result` guard fired: prints `No science file …` and
  returns `None`. -/
  | notFound
  /-- Normal return `(science_raw_path, flats_df, darks_df)`; the two lists
  hold the `raw_files` rows selected by the two matching queries. -/
  | ok (path : String) (flats darks : List RawRow)
  deriving Repr, DecidableEq

/-- `DatabaseInterface.get_files_for_science`.  The matching queries
compare the denormalized `flats`/`darks` columns with the science raw
file's `(binning, read_speed[, filter])` using SQL equality. -/
def get_files_for_science (st : Store) (science_id : String) : MatchResult :=
  match sciJoinRaw st science_id with
  | none => .crash
  | some (_, rf) =>
    -- second query: same join and WHERE clause, fetching the parameters
    match sciJoinRaw st science_id with
    | none => .notFound   -- unreachable: the first query already succeeded
    | some (_, rf2) =>
      let flats :=
        (st.flats.filter (fun f => sqlEqS f.binning rf2.binning
            && sqlEqS f.read_speed rf2.read_speed
            && sqlEqS f.filter rf2.filter)).flatMap
          (fun f => st.raws.filter (fun r => r.id == f.raw_file_id))
      let darks :=
        (st.darks.filter (fun d => sqlEqS d.binning rf2.binning
            && sqlEqS d.read_speed rf2.read_speed)).flatMap
          (fun d => st.raws.filter (fun r => r.id == d.raw_file_id))
      .ok rf.path flats darks

/-- A FITS header as consumed by `register_fits_files`: each field holds
the value of the corresponding `header.get(…)` lookup.  `cdelt1`/`cdelt2`
are `none` when the axis-scale field is missing or not coercible to an
integer — both make Python's `int(…)` raise. -/
structure Header where
  cdelt1 : Option Int
  cdelt2 : Option Int
  filter : Option String
  category : Option String
  type : Option String
  mjd : Option ℚ
  exposure_time : Option ℚ
  read_speed : Option String
  date : Option String
  object_name : Option String
  deriving Repr, DecidableEq

/-- One candidate file of the ingestion directory; `header = none` when
`fits.open` raises (malformed file). -/
structure FitsFile where
  path : String
  header : Option Header
  deriving Repr, DecidableEq

/-- The `file_info` dictionary built for a decoded header with integer
axis scales. -/
def mkFileInfo (p : String) (h : Header) (c1 c2 : Int) : FileInfo :=
  { path := p, binning := toString c1 ++ "x" ++ toString c2,
    filter := h.filter, category := h.category, type := h.type,
    mjd := h.mjd, exposure_time := h.exposure_time,
    read_speed := h.read_speed, object_name := h.object_name,
    date := h.date }

/-- Result of one iteration of the `register_fits_files` loop. -/
inductive StepResult where
  /-- The iteration finished (possibly via `continue`), printing `diags`. -/
  | ok (st : Store) (diags : List String)
  /-- An uncaught exception escaped the loop body, aborting the whole run;
  the store keeps everything committed before the exception. -/
  | exn (st : Store) (msg : String)
  deriving Repr, DecidableEq

/-- One iteration of the loop of `register_fits_files` over a file. -/
def processFile (st : Store) (f : FitsFile) : StepResult :=
  match f.header with
  | none => .ok st ["Error reading " ++ f.path]
  | some h =>
    match h.cdelt1, h.cdelt2 with
    | some c1, some c2 =>
      let fi := mkFileInfo f.path h c1 c2
      match add_raw_file st fi with
      | (none, st') => .ok st' []    -- `continue`: path already registered
      | (some rid, st') =>
        if fi.category == some "CALIB" then
          match fi.type with
          | none => .exn st' "TypeError: argument of type NoneType is not iterable"
          | some t =>
            if strContains t "FLAT" then
              .ok (add_flat st' rid (some fi.binning) fi.filter fi.read_speed) []
            else if t == "DARK" then
              .ok (add_dark st' rid (some fi.binning) fi.read_speed) []
            else
              .ok st' ["Unknown calibration type '" ++ showOpt fi.type
                ++ "' for file " ++ f.path]
        else if fi.category == some "SCIENCE" then
          if isTruthy fi.object_name && isTruthy fi.date then
            match fi.object_name, fi.date with
            | some o, some d => .ok (add_science st' rid o d).2.1 (add_science st' rid o d).2.2
            | _, _ => .ok st' []   -- unreachable: truthiness implies presence
          else
            .ok st' ["Missing object_name or date for science file " ++ f.path]
        else
          .ok st' ["Unknown category '" ++ showOpt fi.category ++ "' for file " ++ f.path]
    | _, _ =>
      -- `int(header.get('CDELT…'))` raised outside the try/except block
      .exn st "TypeError: int() argument must be a string, a bytes-like object or a real number, not NoneType"

/-- Outcome of a whole `register_fits_files` run. -/
inductive RunResult where
  /-- The loop visited every file; `diags` collects all printed messages. -/
  | completed (st : Store) (diags : List String)
  /-- An uncaught exception aborted the run; later files were never
  processed. -/
  | aborted (st : Store) (diags : List String) (msg : String)
  deriving Repr, DecidableEq

/-- The loop of `register_fits_files`. -/
def registerLoop (st : Store) (diags : List String) : List FitsFile → RunResult
  | [] => .completed st diags
  | f :: fs =>
    match processFile st f with
    | .ok st' d => registerLoop st' (diags ++ d) fs
    | .exn st' m => .aborted st' diags m

/-- `register_fits_files`, over the already-enumerated directory listing
and the store opened from `db_path`. -/
def register_fits_files (files : List FitsFile) (st : Store) : RunResult :=
  registerLoop st [] files

/-- The store a `RunResult` leaves behind. -/
def RunResult.store : RunResult → Store
  | .completed st _ => st
  | .aborted st _ _ => st

/-- The store a `StepResult` leaves behind. -/
def StepResult.store : StepResult → Store
  | .ok st _ => st
  | .exn st _ => st

/-- Number of `raw_files` rows holding a given path. -/
def pathCount (st : Store) (p : String) : Nat :=
  (st.raws.filter (fun r => r.path == p)).length

/-! Concrete fixtures used by the witness theorems. -/

/-- Raw row of a science exposure taken with binning 2x2, read speed
`fast`, filter `R`. -/
def rawSci : RawRow :=
  { id := 1, path := "sci.fits", binning := some "2x2", filter := some "R",
    category := some "SCIENCE", type := some "OBJECT", mjd := none,
    exposure_time := none, read_speed := some "fast",
    object_name := some "NGC", date := some "D1" }

/-- Raw row of a flat matching `rawSci`'s configuration. -/
def rawFlatMatch : RawRow :=
  { id := 2, path := "flat1.fits", binning := some "2x2", filter := some "R",
    category := some "CALIB", type := some "FLAT", mjd := none,
    exposure_time := none, read_speed := some "fast",
    object_name := none, date := none }

/-- Raw row of a flat differing from `rawSci` in the filter only. -/
def rawFlatOther : RawRow :=
  { id := 3, path := "flat2.fits", binning := some "2x2", filter := some "B",
    category := some "CALIB", type := some "FLAT", mjd := none,
    exposure_time := none, read_speed := some "fast",
    object_name := none, date := none }

/-- Raw row of a dark matching `rawSci`'s binning and read speed. -/
def rawDarkMatch : RawRow :=
  { id := 4, path := "dark1.fits", binning := some "2x2", filter := none,
    category := some "CALIB", type := some "DARK", mjd := none,
    exposure_time := none, read_speed := some "fast",
    object_name := none, date := none }

/-- The science row cataloguing `rawSci`. -/
def sciRow1 : SciRow :=
  { id := 1, raw_file_id := 1, unique_key := "NGC__D1",
    object_name := "NGC", date := "D1" }

/-- A populated store: one science exposure, one matching and one
non-matching flat, one matching dark. -/
def stC1 : Store :=
  { raws := [rawSci, rawFlatMatch, rawFlatOther, rawDarkMatch],
    flats := [⟨1, 2, some "2x2", some "R", some "fast"⟩,
              ⟨2, 3, some "2x2", some "B", some "fast"⟩],
    darks := [⟨1, 4, some "2x2", some "fast"⟩],
    science := [sciRow1],
    reduced := [],
    nextRawId := 5, nextFlatId := 3, nextDarkId := 2, nextSciId := 2, nextRedId := 1 }

/-- A store already holding one science entry with key `NGC1__2024-01-01`. -/
def stSci : Store :=
  { emptyStore with
    science := [⟨1, 1, "NGC1__2024-01-01", "NGC1", "2024-01-01"⟩], nextSciId := 2 }

/-- A decodable header of a flat frame with integer axis scales. -/
def wHeader : Header :=
  { cdelt1 := some 2, cdelt2 := some 2, filter := some "R",
    category := some "CALIB", type := some "FLAT", mjd := none,
    exposure_time := none, read_speed := some "fast", date := none,
    object_name := none }

/-- A well-formed ingestion candidate. -/
def wFile : FitsFile :=
  { path := "a.fits", header := some wHeader }

/-- A file that opens, but whose header has no `CDELT1` value, so
`int(header.get('CDELT1'))` raises. -/
def badHeader : Header :=
  { cdelt1 := none, cdelt2 := some 2, filter := some "R",
    category := some "CALIB", type := some "FLAT", mjd := none,
    exposure_time := none, read_speed := some "fast", date := none,
    object_name := none }

def badFile : FitsFile :=
  { path := "bad.fits", header := some badHeader }

/-- A fully valid file listed after `badFile` in the same directory. -/
def goodFile : FitsFile :=
  { path := "good.fits", header := some wHeader }

/-! Helper lemmas. -/

theorem elemNanMedian_getElem? (stack : List (List RVal)) (n i : Nat) (h : i < n) :
    (elemNanMedian stack n)[i]? = some (nanmedian (pixelSlice stack i)) := by
  simp [elemNanMedian, List.getElem?_map, List.getElem?_range, h]

theorem subArr_getElem? (a b : List RVal) (i : Nat) :
    (subArr a b)[i]? =
      match a[i]?, b[i]? with
      | some x, some y => some (rsub x y)
      | _, _ => none := by
  simp only [subArr, List.getElem?_zipWith]
  rcases a[i]? with _ | x <;> rcases b[i]? with _ | y <;> rfl

theorem clampFlat_getElem? (a : List RVal) (i : Nat) :
    (clampFlat a)[i]? = a[i]?.map (fun x => if rltc x clampThreshold then some 1 else x) := by
  simp [clampFlat, List.getElem?_map]

theorem rdiv_one (x : RVal) : rdiv x (some 1) = x := by
  cases x <;> simp [rdiv]

theorem rdiv_nan (x : RVal) : rdiv x none = none := by
  cases x <;> rfl

/-- C2: the worked example of the spec, evaluated exactly. -/
theorem reduce_worked_example :
    combinedDark [[some 2, some 4], [some 2, some 6], [some 2, some 8]] 2 = [some 2, some 6] ∧
    darkSubtractedFlats [[some 10, some 10], [some 12, some 10]]
        [[some 2, some 4], [some 2, some 6], [some 2, some 8]] 2 =
      [[some 8, some 4], [some 10, some 4]] ∧
    combinedFlatRaw [[some 10, some 10], [some 12, some 10]]
        [[some 2, some 4], [some 2, some 6], [some 2, some 8]] 2 = [some 9, some 4] ∧
    flatNorm [[some 10, some 10], [some 12, some 10]]
        [[some 2, some 4], [some 2, some 6], [some 2, some 8]] 2 = some (13/2) ∧
    normalizedFlat [[some 10, some 10], [some 12, some 10]]
        [[some 2, some 4], [some 2, some 6], [some 2, some 8]] 2 =
      [some (18/13), some (8/13)] ∧
    reduce_science_file [some 20, some 20] [[some 10, some 10], [some 12, some 10]]
        [[some 2, some 4], [some 2, some 6], [some 2, some 8]] = [some 13, some (91/4)] := by
  norm_num [combinedDark, darkSubtractedFlats, combinedFlatRaw, flatNorm, normalizedFlat,
    reduce_science_file, elemNanMedian, pixelSlice, nanmedian, medianQ, midOfSorted, sortQ,
    insertSorted, subArr, clampFlat, rltc, rsub, rdiv, clampThreshold, List.range_succ]

/-- C3: a pixel of the normalized combined flat whose value lies below
`1e-8` is clamped to `1.0`, so the reduced pixel equals `science -
combined dark` there. -/
theorem reduce_clamped_pixel (science : List RVal) (flats darks : List (List RVal))
    (i : Nat) (v : ℚ) (hi : i < science.length)
    (hv : (normalizedFlat flats darks science.length)[i]? = some (some v))
    (hsmall : v < clampThreshold) :
    (reduce_science_file science flats darks)[i]? =
      some (rsub (science[i]?.getD none) ((combinedDark darks science.length)[i]?.getD none)) := by
  have hs : science[i]? = some science[i] := List.getElem?_eq_getElem hi
  have hd : (combinedDark darks science.length)[i]? =
      some (nanmedian (pixelSlice darks i)) := elemNanMedian_getElem? darks science.length i hi
  have hcl : (clampFlat (normalizedFlat flats darks science.length))[i]? = some (some 1) := by
    rw [clampFlat_getElem?, hv]
    simp [rltc, hsmall]
  have hsub : (subArr science (combinedDark darks science.length))[i]? =
      some (rsub science[i] (nanmedian (pixelSlice darks i))) := by
    rw [subArr_getElem?, hs, hd]
  simp only [reduce_science_file, List.getElem?_zipWith, hsub, hcl, hs, hd,
    Option.getD_some, rdiv_one]

/-- Closed instance of `reduce_clamped_pixel`: the flat pixel 0 normalizes
to 0 < 1e-8, and the reduced pixel 0 equals science - dark = 7. -/
theorem reduce_clamped_pixel_witness :
    (reduce_science_file [some 7, some 7] [[some 0, some 2]] [[some 0, some 0]])[0]? =
      some (rsub (([some 7, some 7] : List RVal)[0]?.getD none)
        ((combinedDark [[some 0, some 0]] ([some 7, some 7] : List RVal).length)[0]?.getD none)) := by
  refine reduce_clamped_pixel [some 7, some 7] [[some 0, some 2]] [[some 0, some 0]] 0 0
    (by norm_num) ?_ (by norm_num [clampThreshold])
  norm_num [normalizedFlat, combinedFlatRaw, darkSubtractedFlats, flatNorm, combinedDark,
    elemNanMedian, pixelSlice, nanmedian, medianQ, midOfSorted, sortQ, insertSorted,
    subArr, rsub, rdiv, List.range_succ]

/-- C10: a NaN pixel of the normalized combined flat is not touched by the
clamp (`NaN < 1e-8` is false), so the reduced pixel is NaN even where
science and dark are finite. -/
theorem reduce_nan_flat_pixel (science : List RVal) (flats darks : List (List RVal))
    (i : Nat) (a b : ℚ)
    (hnan : (normalizedFlat flats darks science.length)[i]? = some none)
    (hs : science[i]? = some (some a))
    (hd : (combinedDark darks science.length)[i]? = some (some b)) :
    (reduce_science_file science flats darks)[i]? = some none := by
  have hcl : (clampFlat (normalizedFlat flats darks science.length))[i]? = some none := by
    rw [clampFlat_getElem?, hnan]
    simp [rltc]
  have hsub : (subArr science (combinedDark darks science.length))[i]? =
      some (rsub (some a) (some b)) := by
    rw [subArr_getElem?, hs, hd]
  simp only [reduce_science_file, List.getElem?_zipWith, hsub, hcl, rdiv_nan]

/-- Closed instance of `reduce_nan_flat_pixel`: an all-NaN flat stack gives
a NaN normalized flat pixel and a NaN reduced pixel over finite science
and dark values. -/
theorem reduce_nan_flat_pixel_witness :
    (reduce_science_file [some 5] [[none]] [[some 0]])[0]? = some none := by
  refine reduce_nan_flat_pixel [some 5] [[none]] [[some 0]] 0 5 0 ?_ ?_ ?_ <;>
    norm_num [normalizedFlat, combinedFlatRaw, darkSubtractedFlats, flatNorm, combinedDark,
      elemNanMedian, pixelSlice, nanmedian, medianQ, midOfSorted, sortQ, insertSorted,
      subArr, rsub, rdiv, List.range_succ]

/-- C4 evaluation: with an empty dark list the combined dark is NaN
(`np.nanmedian` of an empty stack), every downstream value is NaN, no
exception is raised, and an all-NaN output array is written. -/
theorem reduce_empty_darks_writes_nan :
    reduce_science_file [some 20, some 20] [[some 10, some 10]] [] = [none, none] := by
  norm_num [reduce_science_file, normalizedFlat, combinedFlatRaw, darkSubtractedFlats, flatNorm,
    combinedDark, elemNanMedian, pixelSlice, nanmedian, medianQ, midOfSorted, sortQ, insertSorted,
    subArr, clampFlat, rltc, rsub, rdiv, clampThreshold, List.range_succ]

/-- C7: `add_science` stores `uniqueKey = objectName ++ "__" ++ date`; on a
colliding key it returns `None`, prints a diagnostic, inserts nothing and
leaves the existing row (and the whole store) unchanged; otherwise it
appends exactly one science row carrying that key. -/
theorem add_science_spec (st : Store) (rid : Nat) (n d : String) :
    (st.science.any (fun s => s.unique_key == n ++ "__" ++ d) = true →
      add_science st rid n d =
        (none, st, ["Science entry with unique_key " ++ (n ++ "__" ++ d) ++ " already exists."])) ∧
    (st.science.any (fun s => s.unique_key == n ++ "__" ++ d) = false →
      add_science st rid n d =
        (some st.nextSciId,
          { st with
            science := st.science ++ [⟨st.nextSciId, rid, n ++ "__" ++ d, n, d⟩],
            nextSciId := st.nextSciId + 1 },
          [])) := by
  constructor <;> intro h <;> simp [add_science, h]

/-- Closed instance of `add_science_spec`: a second science file with the
same object and date collides, returns `None` with a diagnostic, and the
store is unchanged. -/
theorem add_science_spec_witness :
    add_science stSci 2 "NGC1" "2024-01-01" =
      (none, stSci,
        ["Science entry with unique_key " ++ ("NGC1" ++ "__" ++ "2024-01-01")
          ++ " already exists."]) :=
  (add_science_spec stSci 2 "NGC1" "2024-01-01").1 (by decide)

/-- C9: `get_unreduced_science_files` returns exactly the science keys with
no `reduced_data` row. -/
theorem get_unreduced_science_iff (st : Store) (k : String) :
    k ∈ get_unreduced_science_files st ↔
      ((∃ s ∈ st.science, s.unique_key = k) ∧
        ¬ ∃ r ∈ st.reduced, r.science_unique_key = k) := by
  simp only [get_unreduced_science_files, List.mem_map, List.mem_filter,
    Bool.not_eq_true', List.any_eq_false, beq_iff_eq]
  constructor
  · rintro ⟨s, ⟨hs, hr⟩, rfl⟩
    exact ⟨⟨s, hs, rfl⟩, fun ⟨r, hrm, he⟩ => hr r hrm he⟩
  · rintro ⟨⟨s, hs, rfl⟩, hnr⟩
    exact ⟨s, ⟨hs, fun r hr he => hnr ⟨r, hr, he⟩⟩, rfl⟩

/-- C6 evaluation: on a key absent from the `science` table the first
`fetchone()` yields `None` and the tuple unpacking on line 177 of
`database.py` raises an uncaught `TypeError` — the in-code not-found guard
on lines 186-188 is unreachable. -/
theorem get_files_unknown_key_crash :
    get_files_for_science stC1 "Ghost__2024" = .crash := by decide

theorem sqlEqS_some_right (a : Option String) (y : String) :
    sqlEqS a (some y) = true ↔ a = some y := by
  cases a <;> simp [sqlEqS]

/-- C1: for a science key present in the store whose raw file carries
non-NULL `(binning, read_speed, filter)`, the matcher returns normally
(also when the result sets are empty) with exactly the raw rows of flats
agreeing on all three fields and exactly the raw rows of darks agreeing on
binning and read speed; differing in any field excludes the row. -/
theorem get_files_for_science_exact (st : Store) (key : String) (s : SciRow) (r : RawRow)
    (hjoin : sciJoinRaw st key = some (s, r))
    (b rs fl : String) (hb : r.binning = some b) (hrs : r.read_speed = some rs)
    (hf : r.filter = some fl) :
    ∃ fres dres, get_files_for_science st key = .ok r.path fres dres ∧
      (∀ rr : RawRow, rr ∈ fres ↔ rr ∈ st.raws ∧ ∃ f ∈ st.flats,
        f.raw_file_id = rr.id ∧ f.binning = some b ∧ f.read_speed = some rs ∧
        f.filter = some fl) ∧
      (∀ rr : RawRow, rr ∈ dres ↔ rr ∈ st.raws ∧ ∃ dk ∈ st.darks,
        dk.raw_file_id = rr.id ∧ dk.binning = some b ∧ dk.read_speed = some rs) := by
  simp only [get_files_for_science, hjoin]
  refine ⟨_, _, rfl, ?_, ?_⟩
  · intro rr
    simp only [List.mem_flatMap, List.mem_filter, hb, hrs, hf, sqlEqS_some_right,
      Bool.and_eq_true, beq_iff_eq]
    constructor
    · rintro ⟨f, ⟨hfm, ⟨hfb, hfrs⟩, hff⟩, hrm, hid⟩
      exact ⟨hrm, f, hfm, hid.symm, hfb, hfrs, hff⟩
    · rintro ⟨hrm, f, hfm, hid, hfb, hfrs, hff⟩
      exact ⟨f, ⟨hfm, ⟨hfb, hfrs⟩, hff⟩, hrm, hid.symm⟩
  · intro rr
    simp only [List.mem_flatMap, List.mem_filter, hb, hrs, sqlEqS_some_right,
      Bool.and_eq_true, beq_iff_eq]
    constructor
    · rintro ⟨dk, ⟨hdm, hdb, hdrs⟩, hrm, hid⟩
      exact ⟨hrm, dk, hdm, hid.symm, hdb, hdrs⟩
    · rintro ⟨hrm, dk, hdm, hid, hdb, hdrs⟩
      exact ⟨dk, ⟨hdm, hdb, hdrs⟩, hrm, hid.symm⟩

/-- Closed instance of `get_files_for_science_exact` on `stC1`: the flat
with filter `R` matches, the one with filter `B` does not. -/
theorem get_files_for_science_exact_witness :
    ∃ fres dres, get_files_for_science stC1 "NGC__D1" = .ok rawSci.path fres dres ∧
      (∀ rr : RawRow, rr ∈ fres ↔ rr ∈ stC1.raws ∧ ∃ f ∈ stC1.flats,
        f.raw_file_id = rr.id ∧ f.binning = some "2x2" ∧ f.read_speed = some "fast" ∧
        f.filter = some "R") ∧
      (∀ rr : RawRow, rr ∈ dres ↔ rr ∈ stC1.raws ∧ ∃ dk ∈ stC1.darks,
        dk.raw_file_id = rr.id ∧ dk.binning = some "2x2" ∧ dk.read_speed = some "fast") :=
  get_files_for_science_exact stC1 "NGC__D1" sciRow1 rawSci (by decide) "2x2" "fast" "R"
    (by decide) (by decide) (by decide)

theorem add_flat_raws (st : Store) (rid : Nat) (b f rs : Option String) :
    (add_flat st rid b f rs).raws = st.raws := by
  unfold add_flat
  split <;> rfl

theorem add_dark_raws (st : Store) (rid : Nat) (b rs : Option String) :
    (add_dark st rid b rs).raws = st.raws := by
  unfold add_dark
  split <;> rfl

theorem add_science_store_raws (st : Store) (rid : Nat) (o d : String) :
    ((add_science st rid o d).2.1).raws = st.raws := by
  simp only [add_science]
  split <;> rfl

/-- Within one loop iteration, only `add_raw_file` touches `raw_files`:
the classification steps write to the other tables. -/
theorem processFile_store_raws (st : Store) (p : String) (h : Header) (c1 c2 : Int)
    (h1 : h.cdelt1 = some c1) (h2 : h.cdelt2 = some c2) :
    (processFile st ⟨p, some h⟩).store.raws =
      (add_raw_file st (mkFileInfo p h c1 c2)).2.raws := by
  obtain ⟨a1, a2, afl, acat, aty, am, ae, ar, ad, ao⟩ := h
  obtain rfl : a1 = some c1 := h1
  obtain rfl : a2 = some c2 := h2
  rcases hA : add_raw_file st
      (mkFileInfo p ⟨some c1, some c2, afl, acat, aty, am, ae, ar, ad, ao⟩ c1 c2) with ⟨ro, st'⟩
  simp only [processFile, hA]
  cases ro
  · rfl
  · dsimp only
    repeat' split
    all_goals
      simp [StepResult.store, add_flat_raws, add_dark_raws, add_science_store_raws]

theorem raw_not_exists_filter (st : Store) (p : String)
    (h : raw_file_exists st p = false) :
    st.raws.filter (fun r => r.path == p) = [] := by
  rw [List.filter_eq_nil_iff]
  intro r hr
  have hall := List.any_eq_false.mp h r hr
  simpa using hall

/-- C8: re-ingesting an already-catalogued path is a no-op.  After a first
successful ingestion of a fresh file, the store holds exactly one
`raw_files` row with that path; a second `add_raw_file` returns `None`
leaving the store untouched, and a second loop iteration over the same
file changes nothing and adds no flat, dark or science row (it prints no
diagnostic either). -/
theorem reingest_idempotent (st : Store) (p : String) (h : Header) (c1 c2 : Int)
    (h1 : h.cdelt1 = some c1) (h2 : h.cdelt2 = some c2)
    (hfresh : raw_file_exists st p = false) :
    pathCount (processFile st ⟨p, some h⟩).store p = 1 ∧
    add_raw_file (processFile st ⟨p, some h⟩).store (mkFileInfo p h c1 c2) =
      (none, (processFile st ⟨p, some h⟩).store) ∧
    processFile (processFile st ⟨p, some h⟩).store ⟨p, some h⟩ =
      .ok (processFile st ⟨p, some h⟩).store [] := by
  set st1 := (processFile st ⟨p, some h⟩).store with hst1
  have hraws : st1.raws = st.raws ++ [rawRowOf st (mkFileInfo p h c1 c2)] := by
    rw [hst1, processFile_store_raws st p h c1 c2 h1 h2]
    simp [add_raw_file, hfresh, mkFileInfo]
  have hrowpath : (rawRowOf st (mkFileInfo p h c1 c2)).path = p := rfl
  have hex1 : raw_file_exists st1 p = true := by
    unfold raw_file_exists
    rw [hraws]
    simp [List.any_append, hrowpath]
  have hA2 : add_raw_file st1 (mkFileInfo p h c1 c2) = (none, st1) := by
    have hex : raw_file_exists st1 (mkFileInfo p h c1 c2).path = true := hex1
    simp [add_raw_file, hex]
  refine ⟨?_, hA2, ?_⟩
  · unfold pathCount
    rw [hraws, List.filter_append, raw_not_exists_filter st p hfresh]
    simp [hrowpath]
  · obtain ⟨a1, a2, afl, acat, aty, am, ae, ar, ad, ao⟩ := h
    obtain rfl : a1 = some c1 := h1
    obtain rfl : a2 = some c2 := h2
    simp only [processFile, hA2]

/-- Closed instance of `reingest_idempotent` on the empty store and a
well-formed flat frame file. -/
theorem reingest_idempotent_witness :
    pathCount (processFile emptyStore ⟨"a.fits", some wHeader⟩).store "a.fits" = 1 ∧
    add_raw_file (processFile emptyStore ⟨"a.fits", some wHeader⟩).store
        (mkFileInfo "a.fits" wHeader 2 2) =
      (none, (processFile emptyStore ⟨"a.fits", some wHeader⟩).store) ∧
    processFile (processFile emptyStore ⟨"a.fits", some wHeader⟩).store
        ⟨"a.fits", some wHeader⟩ =
      .ok (processFile emptyStore ⟨"a.fits", some wHeader⟩).store [] :=
  reingest_idempotent emptyStore "a.fits" wHeader 2 2 rfl rfl rfl

/-- C5 evaluation: a directory whose first file opens but lacks an integer
`CDELT1` makes `int(header.get('CDELT1'))` on line 227 of `database.py`
raise outside the `try/except` block: the whole run aborts with no
diagnostic, no row is created for the bad file, and the valid file listed
after it is never ingested. -/
theorem register_missing_cdelt_aborts :
    register_fits_files [badFile, goodFile] emptyStore =
      .aborted emptyStore []
        "TypeError: int() argument must be a string, a bytes-like object or a real number, not NoneType" := by
  decide
